import Mathlib

/-!
Verification development for the image-comparison pipeline of
`src/python/image_comparison.py` (repository nicelifeBS/image_compare).

The Python module drives the external OpenImageIO library.  The embedding
below models an image buffer as a total pixel function over integer
coordinates and channel names, with rational pixel values.  The external
library primitives used by the module (`channels`, `compare`, `sub`, `abs`,
`mul`, `add`, `color_map`, `make_kernel`, `convolve`, `erode`, `dilate`)
are modelled as pure functions on that representation; the comparison
pipeline itself (class `ImageCompare`) is translated statement by
statement.  File writes, printing and the raised exception are recorded
explicitly in a `CompareOutcome` record, since those are the only side
effects of `ImageCompare.compare`.
-/

/-- An image buffer: dimensions, channel layout, and a total pixel
function.  Pixel values are rationals (the float arithmetic of the
library is modelled exactly); coordinates outside `[0, width) ×
[0, height)` are given by the same total function, which lets windowed
filters read past the edge the way the concrete test images define it. -/
structure ImageBuf where
  width : Nat
  height : Nat
  channelnames : List String
  pix : Int → Int → String → ℚ

/-- A convolution kernel: a square window radius per axis and a weight
function on window offsets. -/
structure Kernel where
  rx : Nat
  ry : Nat
  weight : Int → Int → ℚ

/-- Result record of one library comparison, modelling OpenImageIO's
`CompareResults` as used by the module: pixel failure count, pixel
warning count, mean absolute error, and mean squared error.  The library
additionally derives `rms_error` as the square root of the mean squared
error and `PSNR` as a logarithm of it; both are strictly monotone images
of `mse` and are irrational in general, so the embedding records `mse`.
No claim depends on their numeric values. -/
structure CompareResults where
  nfail : Nat
  nwarn : Nat
  meanerror : ℚ
  mse : ℚ

/-- A fresh, zeroed `CompareResults()` as produced by the library
constructor. -/
def CompareResults.empty : CompareResults :=
  { nfail := 0, nwarn := 0, meanerror := 0, mse := 0 }

/-- Window offsets `-r .. r` for a centered square filter of radius `r`. -/
def offsets (r : Nat) : List Int :=
  (List.range (2 * r + 1)).map (fun k => ((k : Int) - (r : Int)))

/-- Window offsets of a morphological filter of width `w` (the module
always passes odd widths, centering the window). -/
def morphOffsets (w : Nat) : List Int :=
  (List.range w).map (fun k => ((k : Int) - (((w - 1) / 2 : Nat) : Int)))

/-- Radius of the modelled Gaussian kernel for a requested size: sizes of
at most one give the trivial (identity) kernel. -/
def gaussianRadius (size : ℚ) : Nat :=
  if size ≤ 1 then 0 else ((⌈size⌉).toNat - 1) / 2

/-- One-dimensional normalized binomial weight, the standard discrete
model of a Gaussian: row `2r` of Pascal's triangle divided by `4 ^ r`. -/
def binomWeight (r : Nat) (i : Int) : ℚ :=
  ((Nat.choose (2 * r) ((i + (r : Int)).toNat) : ℕ) : ℚ) / ((4 : ℚ) ^ r)

/-- Models `ImageBufAlgo.channels(dst, src, names)`: the destination keeps
the source geometry, its channel list becomes `names`, and a named channel
reads the source channel of the same name (a name the source lacks reads
as zero, the library fill value). -/
def ImageBufAlgo.channels (src : ImageBuf) (names : List String) : ImageBuf :=
  { width := src.width, height := src.height, channelnames := names,
    pix := fun x y c => if c ∈ src.channelnames then src.pix x y c else 0 }

/-- Pixel function of `erode`: the minimum over the centered `w × hgt`
window around the pixel, per channel. -/
def erodePix (src : ImageBuf) (w hgt : Nat) (x y : Int) (c : String) : ℚ :=
  List.foldl
    (fun acc i => List.foldl
      (fun acc2 j => min acc2 (src.pix (x + i) (y + j) c)) acc (morphOffsets hgt))
    (src.pix x y c) (morphOffsets w)

/-- Models `ImageBufAlgo.erode(dst, src, w, h)`: per pixel and channel,
the minimum over the centered `w × h` window. -/
def ImageBufAlgo.erode (src : ImageBuf) (w hgt : Nat) : ImageBuf :=
  { src with pix := erodePix src w hgt }

/-- Pixel function of `dilate`: the maximum over the centered `w × hgt`
window around the pixel, per channel. -/
def dilatePix (src : ImageBuf) (w hgt : Nat) (x y : Int) (c : String) : ℚ :=
  List.foldl
    (fun acc i => List.foldl
      (fun acc2 j => max acc2 (src.pix (x + i) (y + j) c)) acc (morphOffsets hgt))
    (src.pix x y c) (morphOffsets w)

/-- Models `ImageBufAlgo.dilate(dst, src, w, h)`: per pixel and channel,
the maximum over the centered `w × h` window. -/
def ImageBufAlgo.dilate (src : ImageBuf) (w hgt : Nat) : ImageBuf :=
  { src with pix := dilatePix src w hgt }

/-- Models `ImageBufAlgo.make_kernel(dst, "gaussian", w, h)`.  The library
builds a normalized Gaussian tap table (overwriting the destination
buffer); the embedding uses the normalized binomial approximation, which
is exact in the rationals.  A requested size of at most one yields the
one-tap identity kernel. -/
def ImageBufAlgo.make_kernel (kname : String) (w hgt : ℚ) : Kernel :=
  { rx := gaussianRadius w, ry := gaussianRadius hgt,
    weight := fun i j => binomWeight (gaussianRadius w) i * binomWeight (gaussianRadius hgt) j }

/-- Pixel function of `convolve`: weighted sum of the source over the
kernel window, per channel. -/
def convolvePix (src : ImageBuf) (k : Kernel) (x y : Int) (c : String) : ℚ :=
  List.foldl
    (fun acc i => List.foldl
      (fun acc2 j => acc2 + k.weight i j * src.pix (x + i) (y + j) c) acc (offsets k.ry))
    0 (offsets k.rx)

/-- Models `ImageBufAlgo.convolve(dst, src, kernel)`: weighted sum of the
source over the kernel window, per channel. -/
def ImageBufAlgo.convolve (src : ImageBuf) (k : Kernel) : ImageBuf :=
  { src with pix := convolvePix src k }

/-- Models `ImageBufAlgo.sub(dst, a, b)` with the destination created from
the spec of `a` (as `create_diff_buffer` does). -/
def ImageBufAlgo.sub (a b : ImageBuf) : ImageBuf :=
  { a with pix := fun x y c => a.pix x y c - b.pix x y c }

/-- Models `ImageBufAlgo.abs(dst, a)`. -/
def ImageBufAlgo.absBuf (a : ImageBuf) : ImageBuf :=
  { a with pix := fun x y c => |a.pix x y c| }

/-- Models `ImageBufAlgo.add(dst, a, b)`. -/
def ImageBufAlgo.add (a b : ImageBuf) : ImageBuf :=
  { a with pix := fun x y c => a.pix x y c + b.pix x y c }

/-- Position of a channel name in a channel list. -/
def chanIdx : List String → String → Nat → Option Nat
  | [], _, _ => none
  | n :: rest, c, k => if n = c then some k else chanIdx rest c (k + 1)

/-- Models `ImageBufAlgo.mul(dst, a, m)` with a per-channel constant
list: the channel at position `k` is scaled by `m[k]` (the module passes
the quadruple `(5, 5, 5, 1.0)`). -/
def ImageBufAlgo.mul (a : ImageBuf) (m : List ℚ) : ImageBuf :=
  { a with pix := fun x y c =>
      a.pix x y c * (match chanIdx a.channelnames c 0 with
        | some k => m.getD k 1
        | none => 1) }

/-- Models `ImageBufAlgo.color_map(dst, src, -1, "inferno")`: the source
luminance is pushed through a monotone dark-to-bright gradient onto three
RGB channels.  The concrete lookup table of the library is out of scope
(no claim depends on the mapped values); the model keeps the shape of the
operation: a function of luminance alone producing an RGB image. -/
def ImageBufAlgo.color_map (src : ImageBuf) (mapname : String) : ImageBuf :=
  { width := src.width, height := src.height, channelnames := ["R", "G", "B"],
    pix := fun x y c =>
      (src.pix x y "R" + src.pix x y "G" + src.pix x y "B") / 3 }

/-- Per-pixel per-channel absolute differences, over the channel list of
the first buffer (the library requires matching layouts). -/
def ImageBufAlgo.channelErrs (a b : ImageBuf) (x y : Int) : List ℚ :=
  a.channelnames.map (fun c => |a.pix x y c - b.pix x y c|)

/-- Largest per-channel absolute difference at one pixel. -/
def ImageBufAlgo.pxMaxErr (a b : ImageBuf) (x y : Int) : ℚ :=
  (ImageBufAlgo.channelErrs a b x y).foldl max 0

/-- All pixel coordinates of a buffer. -/
def ImageBufAlgo.allPixels (a : ImageBuf) : List (Int × Int) :=
  ((List.range a.width).map (fun x =>
    (List.range a.height).map (fun y => ((x : Int), (y : Int))))).flatten

/-- Models `ImageBufAlgo.compare(a, b, failthresh, warnthresh, result)`:
a pixel fails when some channel difference exceeds the failure threshold
and warns when some channel difference exceeds the warning threshold; the
mean absolute and mean squared errors aggregate over every pixel and
channel. -/
def ImageBufAlgo.compareBufs (a b : ImageBuf) (failthresh warnthresh : ℚ) : CompareResults :=
  { nfail := ((ImageBufAlgo.allPixels a).filter
        (fun p => decide (failthresh < ImageBufAlgo.pxMaxErr a b p.1 p.2))).length,
    nwarn := ((ImageBufAlgo.allPixels a).filter
        (fun p => decide (warnthresh < ImageBufAlgo.pxMaxErr a b p.1 p.2))).length,
    meanerror := ((ImageBufAlgo.allPixels a).foldl
        (fun acc p => acc + (ImageBufAlgo.channelErrs a b p.1 p.2).foldl (fun s e => s + e) 0) 0)
      / (((a.width * a.height * a.channelnames.length : ℕ)) : ℚ),
    mse := ((ImageBufAlgo.allPixels a).foldl
        (fun acc p => acc + (ImageBufAlgo.channelErrs a b p.1 p.2).foldl (fun s e => s + e * e) 0) 0)
      / (((a.width * a.height * a.channelnames.length : ℕ)) : ℚ) }

/-- Split a character list on slashes, keeping empty segments, exactly
like `"p".split("/")` in Python. -/
def splitOnSlash : List Char → List (List Char)
  | [] => [[]]
  | c :: rest =>
      if c = '/' then [] :: splitOnSlash rest
      else ((c :: (splitOnSlash rest).headD []) :: (splitOnSlash rest).tail)

/-- Join segments with slashes, the inverse of `splitOnSlash`. -/
def joinSlash : List (List Char) → List Char
  | [] => []
  | [x] => x
  | x :: xs => x ++ '/' :: joinSlash xs

/-- Models `os.path.dirname`: everything before the last slash. -/
def OsPath.dirname (p : String) : String :=
  String.mk (joinSlash ((splitOnSlash p.toList).dropLast))

/-- Models `os.path.basename`: everything after the last slash. -/
def OsPath.basename (p : String) : String :=
  String.mk ((splitOnSlash p.toList).getLastD [])

/-- Suffix of a character list starting at its last dot, or empty. -/
def extAfterLastDot : List Char → List Char
  | [] => []
  | c :: rest =>
      if (extAfterLastDot rest).isEmpty then
        (if c = '.' then c :: rest else [])
      else extAfterLastDot rest

/-- Models `os.path.splitext(p)[-1]`: the extension of the basename,
with the leading dots of the basename not counting as separators. -/
def OsPath.splitextExt (p : String) : String :=
  String.mk (extAfterLastDot ((OsPath.basename p).toList.dropWhile (fun c => c = '.')))

/-- The module-level `report_msg` template instantiated with a result
record.  The RMS-error and PSNR lines carry the recorded `mse` rendering
(see `CompareResults`); no claim inspects the rendered digits. -/
def reportMsg (r : CompareResults) : String :=
  "\nFailures:       " ++ toString r.nfail ++
  "\nWarnings:       " ++ toString r.nwarn ++
  "\nAverage error:  " ++ toString r.meanerror ++
  "\nRMS error:      " ++ toString r.mse ++
  "\nPSNR:           " ++ toString r.mse ++ "\n"

/-- The comparator state: the attributes of a Python `ImageCompare`
instance. -/
structure ImageCompare where
  fail_threshold : ℚ
  warn_threshold : ℚ
  image_a_buffer : ImageBuf
  image_b_buffer : ImageBuf
  image_a_location : String
  image_b_location : String
  file_ext : String
  compare_results : CompareResults

/-- The channel triple `('R', 'G', 'B')` passed to the channel reduction
in the constructor. -/
def rgbChannels : List String := ["R", "G", "B"]

/-- Models `ImageCompare.__init__(image_a, image_b)`.  Loading a path is
modelled by a filesystem function `fs` from paths to decoded buffers. -/
def ImageCompare.init (fs : String → ImageBuf) (image_a image_b : String) : ImageCompare :=
  { fail_threshold := 0.1,
    warn_threshold := 0.01,
    image_a_buffer := ImageBufAlgo.channels (fs image_a) rgbChannels,
    image_b_buffer := ImageBufAlgo.channels (fs image_b) rgbChannels,
    image_a_location := image_a,
    image_b_location := image_b,
    file_ext := OsPath.splitextExt image_a,
    compare_results := CompareResults.empty }

/-- Models `ImageCompare._open(source, size=3)`: erode then dilate. -/
def ImageCompare.openOp (source : ImageBuf) (size : Nat) : ImageBuf :=
  ImageBufAlgo.dilate (ImageBufAlgo.erode source size size) size size

/-- Models `ImageCompare._blur(source, size)`: the source is first passed
through `_open` (with its default window of 3), then convolved with a
Gaussian kernel of the requested size.  (The source builds the kernel
buffer from the image spec, but `make_kernel` overwrites it entirely.) -/
def ImageCompare.blurOp (source : ImageBuf) (size : ℚ) : ImageBuf :=
  ImageBufAlgo.convolve (ImageCompare.openOp source 3)
    (ImageBufAlgo.make_kernel "gaussian" size size)

/-- Models `ImageCompare.blur_images(size)`: both buffers are replaced by
their `_blur`. -/
def ImageCompare.blur_images (self : ImageCompare) (size : ℚ) : ImageCompare :=
  { self with
    image_a_buffer := ImageCompare.blurOp self.image_a_buffer size,
    image_b_buffer := ImageCompare.blurOp self.image_b_buffer size }

/-- Models `ImageCompare.create_diff_buffer()`: absolute difference of
the two buffers, into a fresh buffer with the spec of the first. -/
def ImageCompare.create_diff_buffer (self : ImageCompare) : ImageBuf :=
  ImageBufAlgo.absBuf (ImageBufAlgo.sub self.image_a_buffer self.image_b_buffer)

/-- The state of the instance after the first half of `compare`: buffers
blurred, and the library comparison of the blurred buffers stored into
`_compare_results`.  (`blur_images` is inlined here; the record below is
definitionally the state `self.blur_images blur` with the comparison of
its two buffers stored.) -/
def ImageCompare.preState (self : ImageCompare) (blur : ℚ) : ImageCompare :=
  { self with
    image_a_buffer := ImageCompare.blurOp self.image_a_buffer blur,
    image_b_buffer := ImageCompare.blurOp self.image_b_buffer blur,
    compare_results := ImageBufAlgo.compareBufs
      (ImageCompare.blurOp self.image_a_buffer blur)
      (ImageCompare.blurOp self.image_b_buffer blur)
      self.fail_threshold
      self.warn_threshold }

/-- The output directory used by `compare`: the argument when it is a
non-empty string (Python truthiness), else the directory of the first
image. -/
def ImageCompare.diffDir (self : ImageCompare) (loc : Option String) : String :=
  match loc with
  | none => OsPath.dirname self.image_a_location
  | some s => if s = "" then OsPath.dirname self.image_a_location else s

/-- The path of the difference artifact written on failure, following the
format string of the source. -/
def ImageCompare.diffPath (self : ImageCompare) (loc : Option String) : String :=
  self.diffDir loc ++ "/" ++ OsPath.basename self.image_a_location ++ "-" ++
    OsPath.basename self.image_b_location ++ "_diff" ++ self.file_ext

/-- The path of the first debug image written on failure (the source
interpolates the constant name `1_a` into `{}/{}_debug{}`). -/
def ImageCompare.debugAPath (self : ImageCompare) (loc : Option String) : String :=
  self.diffDir loc ++ "/1_a_debug" ++ self.file_ext

/-- The path of the second debug image written on failure (the source
interpolates the constant name `1_b` into `{}/{}_debug{}`). -/
def ImageCompare.debugBPath (self : ImageCompare) (loc : Option String) : String :=
  self.diffDir loc ++ "/1_b_debug" ++ self.file_ext

/-- The three files written inside the failure branch of `compare`, in
source order: the colormapped, amplified and blended difference image,
then the two buffers written to the debug paths.  (The source computes
`create_diff_buffer` just before the branch; it is pure, so it is folded
into this definition.) -/
def ImageCompare.failWrites (self : ImageCompare) (loc : Option String) : List (String × ImageBuf) :=
  [(self.diffPath loc,
      ImageBufAlgo.add self.image_a_buffer
        (ImageBufAlgo.mul (ImageBufAlgo.color_map self.create_diff_buffer "inferno")
          [5, 5, 5, 1])),
   (self.debugAPath loc, self.image_a_buffer),
   (self.debugBPath loc, self.image_b_buffer)]

/-- The full observable outcome of one `compare` call: the updated
instance, the files written (path and contents, in order), the lines
printed, and the message of the raised `ImageDifferenceError` when one
is raised. -/
structure CompareOutcome where
  state : ImageCompare
  writes : List (String × ImageBuf)
  printed : List String
  raised : Option String

/-- Models `ImageCompare.compare(diff_image_location=None, blur=10,
raise_exception=True)`.  The failure branch writes its three files and
then raises (strict mode) or prints the report. -/
def ImageCompare.compare (self : ImageCompare) (diff_image_location : Option String)
    (blur : ℚ) (raise_exception : Bool) : CompareOutcome :=
  if 0 < (self.preState blur).compare_results.nfail then
    { state := self.preState blur,
      writes := (self.preState blur).failWrites diff_image_location,
      printed := if raise_exception then [] else [reportMsg (self.preState blur).compare_results],
      raised := if raise_exception then some (reportMsg (self.preState blur).compare_results)
                else none }
  else
    { state := self.preState blur, writes := [], printed := [], raised := none }

/-- `compare` invoked with every argument left at its Python default. -/
def ImageCompare.compareDefaults (self : ImageCompare) : CompareOutcome :=
  self.compare none 10 true

/-- Modelled from the spec, for comparison with the source: the
pre-filter as the specification describes it, a pure Gaussian blur of the
given size and nothing else. -/
def specGaussianBlur (source : ImageBuf) (size : ℚ) : ImageBuf :=
  ImageBufAlgo.convolve source (ImageBufAlgo.make_kernel "gaussian" size size)

/-- An input image with its alpha channel dropped from the layout (the
pixel function is untouched; the removed name is simply no longer a
channel of the image). -/
def stripAlpha (img : ImageBuf) : ImageBuf :=
  { img with channelnames := img.channelnames.filter (fun n => n != "A") }

/-- A 1-by-1 RGB test image with constant pixel value `v`. -/
def constBuf (v : ℚ) : ImageBuf :=
  { width := 1, height := 1, channelnames := rgbChannels, pix := fun _ _ _ => v }

/-- A 3-by-3 RGB test image with constant pixel value `v`. -/
def constBuf3 (v : ℚ) : ImageBuf :=
  { width := 3, height := 3, channelnames := rgbChannels, pix := fun _ _ _ => v }

/-- A 3-by-3 RGB test image that is black except for a single full-bright
pixel at the center. -/
def spikeBuf : ImageBuf :=
  { width := 3, height := 3, channelnames := rgbChannels,
    pix := fun x y _ => if x = 1 ∧ y = 1 then 1 else 0 }

/-- A comparator state whose buffers differ by a full unit everywhere:
every comparison of it fails. -/
def sFail : ImageCompare :=
  { fail_threshold := 0.1, warn_threshold := 0.01,
    image_a_buffer := constBuf 1, image_b_buffer := constBuf 0,
    image_a_location := "out/a.png", image_b_location := "out/b.png",
    file_ext := ".png", compare_results := CompareResults.empty }

/-- A comparator state whose buffers differ by one twentieth everywhere:
above the warning threshold, below the failure threshold. -/
def sWarn : ImageCompare :=
  { sFail with image_a_buffer := constBuf (1 / 20), image_b_buffer := constBuf 0 }

/-- A comparator state whose candidate is the single-spike image. -/
def sSpike : ImageCompare :=
  { sFail with image_a_buffer := spikeBuf, image_b_buffer := constBuf3 0 }

/-- A concrete filesystem: a bright image at the candidate path, black
everywhere else. -/
def fsTest : String → ImageBuf :=
  fun p => if p = "out/a.png" then constBuf 1 else constBuf 0

/-- The state returned by `compare` is the blurred-and-measured state,
whether or not the comparison failed. -/
theorem compare_state_eq (self : ImageCompare) (loc : Option String) (blur : ℚ)
    (re : Bool) : (self.compare loc blur re).state = self.preState blur := by
  unfold ImageCompare.compare
  split <;> rfl

/-- The raised-exception observable of `compare`, as a closed form. -/
theorem compare_raised_eq (self : ImageCompare) (loc : Option String) (blur : ℚ)
    (re : Bool) :
    (self.compare loc blur re).raised =
      if 0 < (self.preState blur).compare_results.nfail then
        (if re then some (reportMsg (self.preState blur).compare_results) else none)
      else none := by
  unfold ImageCompare.compare
  split <;> rfl

/-- The printing observable of `compare`, as a closed form. -/
theorem compare_printed_eq (self : ImageCompare) (loc : Option String) (blur : ℚ)
    (re : Bool) :
    (self.compare loc blur re).printed =
      if 0 < (self.preState blur).compare_results.nfail then
        (if re then [] else [reportMsg (self.preState blur).compare_results])
      else [] := by
  unfold ImageCompare.compare
  split <;> rfl

/-- The paths written by `compare`, as a closed form. -/
theorem compare_writes_fst_eq (self : ImageCompare) (loc : Option String) (blur : ℚ)
    (re : Bool) :
    (self.compare loc blur re).writes.map Prod.fst =
      if 0 < (self.preState blur).compare_results.nfail then
        [self.diffPath loc, self.debugAPath loc, self.debugBPath loc]
      else [] := by
  unfold ImageCompare.compare
  split <;> rfl

/-- Congruence of `List.foldl` for functions that agree on the list. -/
theorem foldlCongrMem {α β : Type} (l : List α) (f g : β → α → β)
    (h : ∀ acc x, x ∈ l → f acc x = g acc x) :
    ∀ i, l.foldl f i = l.foldl g i := by
  induction l with
  | nil => intro i; rfl
  | cons a t ih =>
      intro i
      simp only [List.foldl_cons]
      rw [h i a (List.mem_cons_self a t)]
      exact ih (fun acc x hx => h acc x (List.mem_cons_of_mem a hx)) (g i a)

/-- Congruence of `List.map` for functions that agree on the list. -/
theorem mapCongrMem {α β : Type} (l : List α) (f g : α → β)
    (h : ∀ x, x ∈ l → f x = g x) : l.map f = l.map g := by
  induction l with
  | nil => rfl
  | cons a t ih =>
      simp only [List.map_cons]
      rw [h a (List.mem_cons_self a t), ih (fun x hx => h x (List.mem_cons_of_mem a hx))]

/-- Congruence of `List.filter` for predicates that agree on the list. -/
theorem filterCongrMem {α : Type} (l : List α) (p q : α → Bool)
    (h : ∀ x, x ∈ l → p x = q x) : l.filter p = l.filter q := by
  induction l with
  | nil => rfl
  | cons a t ih =>
      simp only [List.filter_cons]
      rw [h a (List.mem_cons_self a t), ih (fun x hx => h x (List.mem_cons_of_mem a hx))]

/-- `erode` only reads the source channel it writes: pointwise agreement
on a channel is preserved. -/
theorem erode_pix_congr (A B : ImageBuf) (c : String) (w hgt : Nat)
    (hp : ∀ x y : Int, A.pix x y c = B.pix x y c) (x y : Int) :
    (ImageBufAlgo.erode A w hgt).pix x y c = (ImageBufAlgo.erode B w hgt).pix x y c := by
  show erodePix A w hgt x y c = erodePix B w hgt x y c
  unfold erodePix
  rw [hp x y]
  exact foldlCongrMem _ _ _
    (fun acc i _ => foldlCongrMem _ _ _ (fun acc2 j _ => by rw [hp]) acc)
    (B.pix x y c)

/-- `dilate` only reads the source channel it writes: pointwise agreement
on a channel is preserved. -/
theorem dilate_pix_congr (A B : ImageBuf) (c : String) (w hgt : Nat)
    (hp : ∀ x y : Int, A.pix x y c = B.pix x y c) (x y : Int) :
    (ImageBufAlgo.dilate A w hgt).pix x y c = (ImageBufAlgo.dilate B w hgt).pix x y c := by
  show dilatePix A w hgt x y c = dilatePix B w hgt x y c
  unfold dilatePix
  rw [hp x y]
  exact foldlCongrMem _ _ _
    (fun acc i _ => foldlCongrMem _ _ _ (fun acc2 j _ => by rw [hp]) acc)
    (B.pix x y c)

/-- `convolve` only reads the source channel it writes: pointwise
agreement on a channel is preserved. -/
theorem convolve_pix_congr (A B : ImageBuf) (k : Kernel) (c : String)
    (hp : ∀ x y : Int, A.pix x y c = B.pix x y c) (x y : Int) :
    (ImageBufAlgo.convolve A k).pix x y c = (ImageBufAlgo.convolve B k).pix x y c := by
  show convolvePix A k x y c = convolvePix B k x y c
  unfold convolvePix
  exact foldlCongrMem _ _ _
    (fun acc i _ => foldlCongrMem _ _ _ (fun acc2 j _ => by rw [hp]) acc) 0

/-- The full pre-filter `_blur` preserves pointwise agreement on a
channel. -/
theorem blurOp_pix_congr (A B : ImageBuf) (c : String) (s : ℚ)
    (hp : ∀ x y : Int, A.pix x y c = B.pix x y c) (x y : Int) :
    (ImageCompare.blurOp A s).pix x y c = (ImageCompare.blurOp B s).pix x y c := by
  unfold ImageCompare.blurOp ImageCompare.openOp
  exact convolve_pix_congr _ _ _ c
    (fun x y => dilate_pix_congr _ _ c 3 3
      (fun x y => erode_pix_congr _ _ c 3 3 hp x y) x y) x y

/-- The channel reduction of an image and of its alpha-stripped version
agree on every channel other than the alpha channel. -/
theorem channels_stripAlpha_pix (img : ImageBuf) (c : String) (hc : c ≠ "A")
    (x y : Int) :
    (ImageBufAlgo.channels (stripAlpha img) rgbChannels).pix x y c
      = (ImageBufAlgo.channels img rgbChannels).pix x y c := by
  simp only [ImageBufAlgo.channels, stripAlpha]
  by_cases h : c ∈ img.channelnames
  · rw [if_pos h, if_pos]
    exact List.mem_filter.mpr ⟨h, by simp [hc]⟩
  · rw [if_neg h, if_neg]
    intro hmem
    exact h (List.mem_filter.mp hmem).1

/-- The library comparison only reads the geometry and channel list of
its first argument and the pixels of both arguments on those channels:
it is invariant under replacing the buffers by ones that agree there. -/
theorem compareBufs_congr (A A2 B B2 : ImageBuf) (ft wt : ℚ)
    (hw : A.width = A2.width) (hh : A.height = A2.height)
    (hc : A.channelnames = A2.channelnames)
    (hA : ∀ c ∈ A.channelnames, ∀ x y : Int, A.pix x y c = A2.pix x y c)
    (hB : ∀ c ∈ A.channelnames, ∀ x y : Int, B.pix x y c = B2.pix x y c) :
    ImageBufAlgo.compareBufs A B ft wt = ImageBufAlgo.compareBufs A2 B2 ft wt := by
  have hpts : ImageBufAlgo.allPixels A2 = ImageBufAlgo.allPixels A := by
    unfold ImageBufAlgo.allPixels
    rw [hw, hh]
  have herr : ∀ x y : Int,
      ImageBufAlgo.channelErrs A B x y = ImageBufAlgo.channelErrs A2 B2 x y := by
    intro x y
    unfold ImageBufAlgo.channelErrs
    rw [← hc]
    exact mapCongrMem _ _ _ (fun c hcm => by rw [hA c hcm x y, hB c hcm x y])
  have hmx : ∀ x y : Int,
      ImageBufAlgo.pxMaxErr A B x y = ImageBufAlgo.pxMaxErr A2 B2 x y := by
    intro x y
    unfold ImageBufAlgo.pxMaxErr
    rw [herr]
  unfold ImageBufAlgo.compareBufs
  rw [hpts, hw, hh, hc]
  simp only [CompareResults.mk.injEq]
  refine ⟨?_, ?_, ?_, ?_⟩
  · exact congrArg List.length
      (filterCongrMem _ _ _ (fun p _ => by rw [hmx p.1 p.2]))
  · exact congrArg List.length
      (filterCongrMem _ _ _ (fun p _ => by rw [hmx p.1 p.2]))
  · rw [foldlCongrMem _ _ _ (fun acc p _ => by rw [herr p.1 p.2]) 0]
  · rw [foldlCongrMem _ _ _ (fun acc p _ => by rw [herr p.1 p.2]) 0]

/-- With a requested blur size of zero the Gaussian kernel is the one-tap
identity, so `_blur` reduces to the morphological opening alone. -/
theorem blurOp_zero_pix (src : ImageBuf) (x y : Int) (c : String) :
    (ImageCompare.blurOp src 0).pix x y c = (ImageCompare.openOp src 3).pix x y c := by
  have h0 : gaussianRadius 0 = 0 := by
    unfold gaussianRadius
    rw [if_pos]
    exact zero_le_one
  show convolvePix (ImageCompare.openOp src 3) (ImageBufAlgo.make_kernel "gaussian" 0 0)
      x y c = (ImageCompare.openOp src 3).pix x y c
  unfold convolvePix ImageBufAlgo.make_kernel
  simp only [h0]
  have hoff : offsets 0 = [0] := rfl
  rw [hoff]
  simp only [List.foldl_cons, List.foldl_nil]
  have hbw : binomWeight 0 0 = 1 := by
    unfold binomWeight
    norm_num
  rw [hbw]
  simp

/-- C1: `compare` raises an `ImageDifferenceError` carrying the formatted
report as its message exactly when the computed failure count is positive
and `raise_exception` is true; with failures but strict mode off it
returns normally and prints the report; with no failures it neither
raises nor prints. -/
theorem compare_raises_iff_failures (self : ImageCompare) (loc : Option String)
    (blur : ℚ) (re : Bool) :
    ((self.compare loc blur re).raised
        = some (reportMsg (self.preState blur).compare_results)
      ↔ (0 < (self.preState blur).compare_results.nfail ∧ re = true))
    ∧ ((0 < (self.preState blur).compare_results.nfail ∧ re = false) →
        (self.compare loc blur re).raised = none
          ∧ (self.compare loc blur re).printed
              = [reportMsg (self.preState blur).compare_results])
    ∧ ((self.preState blur).compare_results.nfail = 0 →
        (self.compare loc blur re).raised = none
          ∧ (self.compare loc blur re).printed = []) := by
  rw [compare_raised_eq, compare_printed_eq]
  by_cases h : 0 < (self.preState blur).compare_results.nfail <;> cases re <;>
    simp [h] <;> omega

set_option maxRecDepth 100000 in
unseal Rat.add Rat.sub Rat.mul Rat.inv Rat.ofScientific in
/-- Witness for C1: on a concretely failing comparison run in strict
mode, `compare` raises with the report as message. -/
theorem compare_raises_iff_failures_witness :
    (sFail.compare none 0 true).raised
      = some (reportMsg (sFail.preState 0).compare_results) :=
  (compare_raises_iff_failures sFail none 0 true).1.mpr ⟨by decide, rfl⟩

/-- C2: the diff artifact path is among the written files exactly when
the failure count is positive, and a run with zero failures writes no
file at all. -/
theorem diff_artifact_written_iff_failures (self : ImageCompare) (loc : Option String)
    (blur : ℚ) (re : Bool) :
    (self.diffPath loc ∈ (self.compare loc blur re).writes.map Prod.fst
      ↔ 0 < (self.preState blur).compare_results.nfail)
    ∧ ((self.preState blur).compare_results.nfail = 0 →
        (self.compare loc blur re).writes = []) := by
  constructor
  · rw [compare_writes_fst_eq]
    by_cases h : 0 < (self.preState blur).compare_results.nfail <;> simp [h]
  · intro h0
    have h : ¬0 < (self.preState blur).compare_results.nfail := by omega
    unfold ImageCompare.compare
    rw [if_neg h]

set_option maxRecDepth 100000 in
unseal Rat.add Rat.sub Rat.mul Rat.inv Rat.ofScientific in
/-- Witness for C2: on a concretely failing run the diff artifact path is
written. -/
theorem diff_artifact_written_iff_failures_witness :
    sFail.diffPath none ∈ (sFail.compare none 0 true).writes.map Prod.fst :=
  (diff_artifact_written_iff_failures sFail none 0 true).1.mpr (by decide)

set_option maxRecDepth 100000 in
unseal Rat.add Rat.sub Rat.mul Rat.inv Rat.ofScientific in
/-- Counterexample to C3 as stated: on a concrete failing run with
candidate `out/a.png` and baseline `out/b.png`, the artifact is written
to `out/a.png-b.png_diff.png` — the name interpolates both basenames —
and no file appears at the claimed `{dir}/{basename}_diff{ext}` path
(with the basename taken either with or without its extension). -/
theorem diff_path_name_counterexample :
    (sFail.compare none 0 true).writes.map Prod.fst
        = ["out/a.png-b.png_diff.png", "out/1_a_debug.png", "out/1_b_debug.png"]
    ∧ "out/a.png_diff.png" ∉ (sFail.compare none 0 true).writes.map Prod.fst
    ∧ "out/a_diff.png" ∉ (sFail.compare none 0 true).writes.map Prod.fst := by
  decide

/-- C3 (amended): whenever the diff artifact is written, its path is
`{dir}/{basename of candidate}-{basename of baseline}_diff{ext}`, where
`dir` is the caller-supplied output directory when that is a non-empty
string and otherwise the directory of the candidate path, and `ext` is
the candidate file extension captured at construction. -/
theorem diff_path_formula (fs : String → ImageBuf) (a b : String) (loc : Option String)
    (blur : ℚ) (re : Bool)
    (hfail : 0 < ((ImageCompare.init fs a b).preState blur).compare_results.nfail) :
    (((ImageCompare.init fs a b).compare loc blur re).writes.map Prod.fst).head? =
      some ((match loc with
              | none => OsPath.dirname a
              | some s => if s = "" then OsPath.dirname a else s)
            ++ "/" ++ OsPath.basename a ++ "-" ++ OsPath.basename b ++ "_diff"
            ++ OsPath.splitextExt a) := by
  rw [compare_writes_fst_eq, if_pos hfail]
  cases loc <;> rfl

set_option maxRecDepth 100000 in
unseal Rat.add Rat.sub Rat.mul Rat.inv Rat.ofScientific in
/-- Witness for C3 (amended), at a concrete failing run via the
constructor. -/
theorem diff_path_formula_witness :
    0 < ((ImageCompare.init fsTest "out/a.png" "out/b.png").preState 0).compare_results.nfail
    ∧ (((ImageCompare.init fsTest "out/a.png" "out/b.png").compare none 0 true).writes.map
          Prod.fst).head? =
        some ((match (none : Option String) with
                | none => OsPath.dirname "out/a.png"
                | some s => if s = "" then OsPath.dirname "out/a.png" else s)
              ++ "/" ++ OsPath.basename "out/a.png" ++ "-" ++ OsPath.basename "out/b.png"
              ++ "_diff" ++ OsPath.splitextExt "out/a.png") :=
  ⟨by decide, diff_path_formula fsTest "out/a.png" "out/b.png" none 0 true (by decide)⟩

set_option maxRecDepth 100000 in
unseal Rat.add Rat.sub Rat.mul Rat.inv Rat.ofScientific in
/-- Counterexample to C4 as stated: a concrete failing run writes a file
other than the diff artifact (a debug copy of the blurred candidate), so
the diff artifact is not the only file persisted. -/
theorem single_artifact_counterexample :
    "out/1_a_debug.png" ∈ (sFail.compare none 0 true).writes.map Prod.fst
    ∧ "out/1_a_debug.png" ≠ sFail.diffPath none
    ∧ 3 ≤ ((sFail.compare none 0 true).writes.map Prod.fst).length := by
  decide

/-- C4 (amended): a comparison run persists exactly three files when the
failure count is positive — the diff artifact followed by debug copies of
the two blurred buffers at `{dir}/1_a_debug{ext}` and
`{dir}/1_b_debug{ext}` — and no file at all otherwise. -/
theorem compare_writes_exactly_three (self : ImageCompare) (loc : Option String)
    (blur : ℚ) (re : Bool) :
    (self.compare loc blur re).writes.map Prod.fst =
      if 0 < (self.preState blur).compare_results.nfail then
        [self.diffPath loc,
         self.diffDir loc ++ "/1_a_debug" ++ self.file_ext,
         self.diffDir loc ++ "/1_b_debug" ++ self.file_ext]
      else [] := by
  rw [compare_writes_fst_eq]
  rfl

set_option maxRecDepth 100000 in
unseal Rat.add Rat.sub Rat.mul Rat.inv Rat.ofScientific in
/-- Counterexample to C5 as stated: on a concrete run the buffer entering
the statistics step differs from the purely Gaussian-blurred buffer the
spec describes — the pre-filter applies more than a Gaussian blur (the
spike at the center is erased by the morphological opening even though
the Gaussian kernel of size zero is the identity). -/
theorem prefilter_gaussian_only_counterexample :
    (sSpike.compare none 0 true).state.image_a_buffer.pix 1 1 "R"
      ≠ (specGaussianBlur sSpike.image_a_buffer 0).pix 1 1 "R" := by
  rw [compare_state_eq]
  decide

/-- C5 (amended): in `compare`, each buffer is independently transformed
by a morphological opening (erode with a 3-wide window, then dilate with
a 3-wide window) followed by convolution with the Gaussian kernel of the
given size, and that composite replaces the previous buffer content. -/
theorem prefilter_is_open_then_convolve (self : ImageCompare) (loc : Option String)
    (blur : ℚ) (re : Bool) :
    (self.compare loc blur re).state.image_a_buffer
      = ImageBufAlgo.convolve (ImageCompare.openOp self.image_a_buffer 3)
          (ImageBufAlgo.make_kernel "gaussian" blur blur)
    ∧ (self.compare loc blur re).state.image_b_buffer
      = ImageBufAlgo.convolve (ImageCompare.openOp self.image_b_buffer 3)
          (ImageBufAlgo.make_kernel "gaussian" blur blur) := by
  simp only [compare_state_eq]
  exact ⟨rfl, rfl⟩

set_option maxRecDepth 100000 in
unseal Rat.add Rat.sub Rat.mul Rat.inv Rat.ofScientific in
/-- Counterexample to C6 as stated: a concrete `compare` call with blur
size 0 changes the candidate buffer before the statistics step (the
center pixel of the spike image drops from 1 to 0), so the pre-filter is
not the identity at size zero. -/
theorem blur_zero_identity_counterexample :
    (sSpike.compare none 0 true).state.image_a_buffer.pix 1 1 "R"
      ≠ sSpike.image_a_buffer.pix 1 1 "R" := by
  rw [compare_state_eq]
  decide

/-- C6 (amended): with blur size 0 the Gaussian part of the pre-filter is
the identity, but both buffers are still replaced by their morphological
opening before the statistics are computed; and a call that does not
specify a blur size uses the default size 10, not 0. -/
theorem blur_zero_applies_opening (self : ImageCompare) (loc : Option String)
    (re : Bool) :
    (∀ x y : Int, ∀ c : String,
        (self.compare loc 0 re).state.image_a_buffer.pix x y c
          = (ImageCompare.openOp self.image_a_buffer 3).pix x y c)
    ∧ (∀ x y : Int, ∀ c : String,
        (self.compare loc 0 re).state.image_b_buffer.pix x y c
          = (ImageCompare.openOp self.image_b_buffer 3).pix x y c)
    ∧ ImageCompare.compareDefaults self = self.compare none 10 true := by
  refine ⟨fun x y c => ?_, fun x y c => ?_, rfl⟩ <;> rw [compare_state_eq]
  · exact blurOp_zero_pix self.image_a_buffer x y c
  · exact blurOp_zero_pix self.image_b_buffer x y c

/-- C8: thresholds are fixed at construction to 0.1 and 0.01 and no
operation of the comparator changes them: `compare` and `blur_images`
return states with the thresholds of the input state. -/
theorem thresholds_constant (fs : String → ImageBuf) (a b : String)
    (self : ImageCompare) (loc : Option String) (blur sz : ℚ) (re : Bool) :
    (ImageCompare.init fs a b).fail_threshold = 1 / 10
    ∧ (ImageCompare.init fs a b).warn_threshold = 1 / 100
    ∧ (self.compare loc blur re).state.fail_threshold = self.fail_threshold
    ∧ (self.compare loc blur re).state.warn_threshold = self.warn_threshold
    ∧ (self.blur_images sz).fail_threshold = self.fail_threshold
    ∧ (self.blur_images sz).warn_threshold = self.warn_threshold := by
  refine ⟨?_, ?_, ?_, ?_, rfl, rfl⟩
  · norm_num [ImageCompare.init]
  · norm_num [ImageCompare.init]
  · rw [compare_state_eq]
    rfl
  · rw [compare_state_eq]
    rfl

/-- C9: the statistics stored on the comparator after any `compare` call
are exactly the library comparison of the two blurred buffers against the
two thresholds — available to the caller whether or not the run passed —
and an exception is only ever raised when the failure count is positive,
never on warnings alone. -/
theorem warnings_never_raise (self : ImageCompare) (loc : Option String)
    (blur : ℚ) (re : Bool) :
    (self.compare loc blur re).state.compare_results
      = ImageBufAlgo.compareBufs (self.preState blur).image_a_buffer
          (self.preState blur).image_b_buffer self.fail_threshold self.warn_threshold
    ∧ ((self.compare loc blur re).raised ≠ none →
        0 < (self.compare loc blur re).state.compare_results.nfail) := by
  constructor
  · rw [compare_state_eq]
    rfl
  · rw [compare_raised_eq, compare_state_eq]
    by_cases h : 0 < (self.preState blur).compare_results.nfail <;> simp [h]

set_option maxRecDepth 100000 in
unseal Rat.add Rat.sub Rat.mul Rat.inv Rat.ofScientific in
/-- Witness for C9: a concrete run whose only deviation is above the
warning threshold records one warning, zero failures, and raises
nothing. -/
theorem warnings_never_raise_witness :
    ((sWarn.compare none 0 true).raised ≠ none →
        0 < (sWarn.compare none 0 true).state.compare_results.nfail)
    ∧ (sWarn.compare none 0 true).raised = none
    ∧ (sWarn.compare none 0 true).state.compare_results.nwarn = 1
    ∧ (sWarn.compare none 0 true).state.compare_results.nfail = 0 :=
  ⟨(warnings_never_raise sWarn none 0 true).2, by decide, by decide, by decide⟩

/-- C10: a second `compare` call on the same instance blurs the buffers
as left by the first call — the blur compounds — and overwrites the
stored statistics with the comparison of the twice-blurred buffers. -/
theorem repeated_compare_compounds (self : ImageCompare) (l1 l2 : Option String)
    (b1 b2 : ℚ) (r1 r2 : Bool) :
    (((self.compare l1 b1 r1).state).compare l2 b2 r2).state.image_a_buffer
      = ImageCompare.blurOp (ImageCompare.blurOp self.image_a_buffer b1) b2
    ∧ (((self.compare l1 b1 r1).state).compare l2 b2 r2).state.image_b_buffer
      = ImageCompare.blurOp (ImageCompare.blurOp self.image_b_buffer b1) b2
    ∧ (((self.compare l1 b1 r1).state).compare l2 b2 r2).state.compare_results
      = ImageBufAlgo.compareBufs
          (ImageCompare.blurOp (ImageCompare.blurOp self.image_a_buffer b1) b2)
          (ImageCompare.blurOp (ImageCompare.blurOp self.image_b_buffer b1) b2)
          self.fail_threshold self.warn_threshold := by
  simp only [compare_state_eq]
  exact ⟨rfl, rfl, rfl⟩

/-- The pre-filter keeps the buffer geometry. -/
theorem blurOp_width (src : ImageBuf) (s : ℚ) :
    (ImageCompare.blurOp src s).width = src.width := rfl

/-- The pre-filter keeps the buffer geometry. -/
theorem blurOp_height (src : ImageBuf) (s : ℚ) :
    (ImageCompare.blurOp src s).height = src.height := rfl

/-- The pre-filter keeps the channel list. -/
theorem blurOp_channelnames (src : ImageBuf) (s : ℚ) :
    (ImageCompare.blurOp src s).channelnames = src.channelnames := rfl

/-- The channel reduction keeps the geometry of its source. -/
theorem channels_width (src : ImageBuf) (names : List String) :
    (ImageBufAlgo.channels src names).width = src.width := rfl

/-- The channel reduction keeps the geometry of its source. -/
theorem channels_height (src : ImageBuf) (names : List String) :
    (ImageBufAlgo.channels src names).height = src.height := rfl

/-- The channel reduction installs exactly the requested channel list. -/
theorem channels_channelnames (src : ImageBuf) (names : List String) :
    (ImageBufAlgo.channels src names).channelnames = names := rfl

/-- Stripping alpha does not change the geometry. -/
theorem stripAlpha_width (img : ImageBuf) : (stripAlpha img).width = img.width := rfl

/-- Stripping alpha does not change the geometry. -/
theorem stripAlpha_height (img : ImageBuf) : (stripAlpha img).height = img.height := rfl

/-- C7: construction reduces both loaded buffers to exactly the channels
R, G, B, and the whole observable outcome of any comparison — statistics,
raised error, printed report and written paths — is unchanged when the
loaded images are replaced by their alpha-stripped versions: alpha never
affects the comparison. -/
theorem alpha_never_affects_comparison (fs : String → ImageBuf) (a b : String)
    (loc : Option String) (blur : ℚ) (re : Bool) :
    (ImageCompare.init fs a b).image_a_buffer.channelnames = rgbChannels
    ∧ (ImageCompare.init fs a b).image_b_buffer.channelnames = rgbChannels
    ∧ ((ImageCompare.init fs a b).compare loc blur re).state.compare_results
        = ((ImageCompare.init (fun p => stripAlpha (fs p)) a b).compare loc blur
            re).state.compare_results
    ∧ ((ImageCompare.init fs a b).compare loc blur re).raised
        = ((ImageCompare.init (fun p => stripAlpha (fs p)) a b).compare loc blur re).raised
    ∧ ((ImageCompare.init fs a b).compare loc blur re).printed
        = ((ImageCompare.init (fun p => stripAlpha (fs p)) a b).compare loc blur re).printed
    ∧ ((ImageCompare.init fs a b).compare loc blur re).writes.map Prod.fst
        = ((ImageCompare.init (fun p => stripAlpha (fs p)) a b).compare loc blur
            re).writes.map Prod.fst := by
  have hns : ∀ c : String, c ∈ rgbChannels → c ≠ "A" := by
    intro c hcm
    simp only [rgbChannels, List.mem_cons, List.not_mem_nil, or_false] at hcm
    rcases hcm with h | h | h <;> subst h <;> decide
  have base : ∀ (p : String) (c : String), c ≠ "A" → ∀ x y : Int,
      (ImageBufAlgo.channels (fs p) rgbChannels).pix x y c
        = (ImageBufAlgo.channels (stripAlpha (fs p)) rgbChannels).pix x y c :=
    fun p c hc x y => (channels_stripAlpha_pix (fs p) c hc x y).symm
  have key : ((ImageCompare.init fs a b).preState blur).compare_results
      = ((ImageCompare.init (fun p => stripAlpha (fs p)) a b).preState blur).compare_results := by
    refine compareBufs_congr
      (ImageCompare.blurOp (ImageBufAlgo.channels (fs a) rgbChannels) blur)
      (ImageCompare.blurOp (ImageBufAlgo.channels (stripAlpha (fs a)) rgbChannels) blur)
      (ImageCompare.blurOp (ImageBufAlgo.channels (fs b) rgbChannels) blur)
      (ImageCompare.blurOp (ImageBufAlgo.channels (stripAlpha (fs b)) rgbChannels) blur)
      (0.1 : ℚ) (0.01 : ℚ) ?_ ?_ ?_ ?_ ?_
    · rw [blurOp_width, blurOp_width, channels_width, channels_width, stripAlpha_width]
    · rw [blurOp_height, blurOp_height, channels_height, channels_height, stripAlpha_height]
    · rw [blurOp_channelnames, blurOp_channelnames, channels_channelnames,
        channels_channelnames]
    · intro c hcm x y
      rw [blurOp_channelnames, channels_channelnames] at hcm
      exact blurOp_pix_congr _ _ c blur (base a c (hns c hcm)) x y
    · intro c hcm x y
      rw [blurOp_channelnames, channels_channelnames] at hcm
      exact blurOp_pix_congr _ _ c blur (base b c (hns c hcm)) x y
  refine ⟨rfl, rfl, ?_, ?_, ?_, ?_⟩
  · rw [compare_state_eq, compare_state_eq]
    exact key
  · rw [compare_raised_eq, compare_raised_eq, key]
  · rw [compare_printed_eq, compare_printed_eq, key]
  · rw [compare_writes_fst_eq, compare_writes_fst_eq, key]
    simp only [ImageCompare.diffPath, ImageCompare.diffDir, ImageCompare.debugAPath,
      ImageCompare.debugBPath, ImageCompare.init]
